import Mathlib

/-!
Shallow embedding of the gotestmd core, in two parts.

Part one models the interactive shell session (package `shell`): the state
kept by the stdout listener `Bash.stdoutHandler`, the stderr listener
`Bash.stderrHandler`, the submission protocol `Bash.Run` and the shutdown
`Bash.Close`.  The byte streams have no inherent framing, so a listener is
modelled as a step function on the chunks its `Read` calls return, and `Run`
as a function of the cancellation flag and of the first value to arrive on
the two result channels.

Part two models the generator (package `generator`): the `Suite` tree, the
dependency linearization `Suite.getDependenciesSetup` and
`Suite.getDependenciesCleanup`, the body renderer `Body.BashString` and the
script emitter `Suite.BashString`, plus the `Tests` rewrite done by
`Suite.String`.

Strings are modelled as lists of characters (`Str`); all the string
operations on the modelled code paths (`strings.TrimSpace`,
`strings.HasSuffix`, slicing, concatenation) are transliterated onto that
model.  The path helpers `filepath.Abs` and `filepath.Dir`, and the
rendering of the external `Test` values, are standard-library collaborators
of the code under study and are taken as parameters.
-/

abbrev Str : Type := List Char

namespace Shell

/-- Capacity of the listener read buffers: the constant `bufferSize = 1 << 16`. -/
def bufferSize : Nat := 2 ^ 16

/-- The status probe `checkStatus` written after every command; it prints the
sentinel line `OK` on exit status 0 and `FAILED` otherwise. -/
def checkStatus : Str :=
  "if [ $? -eq 0 ]; then\n\techo OK\nelse\n\techo FAILED\nfi".toList

/-- Model of `strings.TrimSpace`: drop whitespace from both ends. -/
def trimSpace (s : Str) : Str :=
  ((s.dropWhile Char.isWhitespace).reverse.dropWhile Char.isWhitespace).reverse

/-- Model of `strings.HasSuffix s suffix`. -/
def hasSuffix (s suffix : Str) : Bool :=
  decide (s.drop (s.length - suffix.length) = suffix)

/-- The sentinel `OK` checked by the stdout listener. -/
def okSent : Str := "OK".toList

/-- The sentinel `FAILED` checked by the stdout listener. -/
def failedSent : Str := "FAILED".toList

/-- The error text built on a `FAILED` sentinel: `errors.New("command has failed")`. -/
def failedMessage : Str := "command has failed".toList

/-- The error a canceled context reports (`context.Canceled`). -/
def ctxCanceled : Str := "context canceled".toList

/-- A value sent on one of the two result channels: `outCh` carries captured
stdout text, `errCh` carries an error message. -/
inductive Event : Type where
  | out (s : Str)
  | err (msg : Str)
  deriving DecidableEq

/-- The state the stdout listener keeps across reads: the `output` variable
and the `buffer[:cur]` bytes accumulated so far. -/
structure StdoutState : Type where
  output : Str
  buffered : Str
  deriving DecidableEq

/-- One loop iteration of `Bash.stdoutHandler` on the chunk a `Read` returned:
trim the accumulated bytes; on trailing `OK` deliver the text minus the
trailing `\nOK` (when longer than the sentinel itself) on the output channel
and reset; on trailing `FAILED` deliver an error and reset; otherwise keep
accumulating, resetting to zero when the buffer is full. -/
def stdoutStep (st : StdoutState) (chunk : Str) : StdoutState × Option Event :=
  let r := trimSpace (st.buffered ++ chunk)
  if hasSuffix r okSent then
    let outText := if 2 < r.length then r.take (r.length - 3) else st.output
    (⟨[], []⟩, some (Event.out outText))
  else if hasSuffix r failedSent then
    (⟨st.output, []⟩, some (Event.err failedMessage))
  else if st.buffered.length + chunk.length = bufferSize then
    (⟨st.output, []⟩, none)
  else
    (⟨st.output, st.buffered ++ chunk⟩, none)

/-- One loop iteration of `Bash.stderrHandler`: the bytes of a single read
become one error on the error channel, with no accumulation. -/
def stderrStep (chunk : Str) : Event := Event.err chunk

/-- Observable outcome of one `Bash.Run` call: the byte strings written to the
process stdin, and the returned pair, `none` when the select blocks forever.
The returned pair is the output string and the error (`none` for a nil error). -/
structure RunOutcome : Type where
  writes : List Str
  result : Option (Str × Option Str)
  deriving DecidableEq

/-- The session state visible to `Run`: whether the cancellation signal fired. -/
structure Bash : Type where
  canceled : Bool
  deriving DecidableEq

/-- Model of `Bash.Run`: fail fast while canceled without writing anything;
otherwise write the command then the status probe, each newline-terminated,
and block until the first event: an error-channel value is returned as a
failure with empty output, an output-channel value as success. `events` is
the arrival order of channel values during the call. -/
def Bash.Run (b : Bash) (cmd : Str) (events : List Event) : RunOutcome :=
  if b.canceled then ⟨[], some ([], some ctxCanceled)⟩
  else
    let writes := [cmd ++ "\n".toList, checkStatus ++ "\n".toList]
    match events with
    | Event.err e :: _ => ⟨writes, some ([], some e)⟩
    | Event.out o :: _ => ⟨writes, some (o, none)⟩
    | [] => ⟨writes, none⟩

/-- Model of `Bash.Close`: trigger cancellation and write `exit 0` to let the
shell terminate; returns the state afterwards and the bytes written. -/
def Bash.Close (_ : Bash) : Bash × List Str :=
  (⟨true⟩, ["exit 0\n".toList])

end Shell

namespace Generator

/-- A `generator.Suite` node: directory, defining location, cleanup and run
command blocks, tests and parent suites.  `Tests` entries are opaque values
rendered by the external `Test` type. -/
inductive Suite : Type where
  | mk (dir location : Str) (cleanup run : List Str) (tests : List Str)
      (parents : List Suite)

/-- Field `Suite.Dir`. -/
def Suite.Dir : Suite → Str
  | Suite.mk d _ _ _ _ _ => d

/-- Field `Suite.Location`. -/
def Suite.Location : Suite → Str
  | Suite.mk _ l _ _ _ _ => l

/-- Field `Suite.Cleanup`. -/
def Suite.Cleanup : Suite → List Str
  | Suite.mk _ _ c _ _ _ => c

/-- Field `Suite.Run`. -/
def Suite.Run : Suite → List Str
  | Suite.mk _ _ _ r _ _ => r

/-- Field `Suite.Tests`. -/
def Suite.Tests : Suite → List Str
  | Suite.mk _ _ _ _ t _ => t

/-- Field `Suite.Parents`. -/
def Suite.Parents : Suite → List Suite
  | Suite.mk _ _ _ _ _ p => p

/-- Concatenation of a list of lists, as a builder accumulates its writes. -/
def concatAll {α : Type} : List (List α) → List α
  | [] => []
  | x :: xs => x ++ concatAll xs

/-- The log marker `echo 'setup suite <dir of Location>'`; `dirOf` models
`filepath.Dir`. -/
def setupMarker (dirOf : Str → Str) (location : Str) : Str :=
  "echo 'setup suite ".toList ++ dirOf location ++ "'".toList

/-- The log marker `echo 'cleanup suite <dir of Location>'`. -/
def cleanupMarker (dirOf : Str → Str) (location : Str) : Str :=
  "echo 'cleanup suite ".toList ++ dirOf location ++ "'".toList

/-- The directory change `cd <abs of Dir>`; `abs` models `filepath.Abs`. -/
def cdCmd (abs : Str → Str) (dir : Str) : Str :=
  "cd ".toList ++ abs dir

mutual

/-- Model of `Suite.getDependenciesSetup`: expand every parent recursively,
then append this suite's own log marker, directory change and `Run` body. -/
def Suite.getDependenciesSetup (abs dirOf : Str → Str) : Suite → List Str
  | Suite.mk d loc _ run _ parents =>
      setupExpansion abs dirOf parents ++ [setupMarker dirOf loc, cdCmd abs d] ++ run

/-- The loop of `Suite.getDependenciesSetup` over a parents list, in declared
order. -/
def setupExpansion (abs dirOf : Str → Str) : List Suite → List Str
  | [] => []
  | p :: ps => Suite.getDependenciesSetup abs dirOf p ++ setupExpansion abs dirOf ps

end

/-- Model of `Suite.getDependenciesCleanup`: this suite's cleanup marker,
directory change and `Cleanup` body, then — for the ancestors — the *setup*
expansion of the parents, exactly as the source does. -/
def Suite.getDependenciesCleanup (abs dirOf : Str → Str) (s : Suite) : List Str :=
  [cleanupMarker dirOf s.Location, cdCmd abs s.Dir] ++ s.Cleanup
    ++ setupExpansion abs dirOf s.Parents

/-- The loop of `Suite.BashString` collecting `getDependenciesCleanup` over the
parents list, in declared order. -/
def cleanupExpansion (abs dirOf : Str → Str) : List Suite → List Str
  | [] => []
  | p :: ps => Suite.getDependenciesCleanup abs dirOf p ++ cleanupExpansion abs dirOf ps

/-- One write made by `Body.BashString` to its builder: fixed text, a command
block (escaped or verbatim), or the abort guard appended when `withExit` is
set. -/
inductive Piece : Type where
  | text (s : Str)
  | block (s : Str)
  | exitGuard
  deriving DecidableEq

/-- The abort guard text `\t[ $? = 0 ] || exit 1\n`. -/
def guardText : Str := "\t[ $? = 0 ] || exit 1\n".toList

/-- The text of one builder write. -/
def Piece.render : Piece → Str
  | Piece.text s => s
  | Piece.block s => s
  | Piece.exitGuard => guardText

/-- Model of `strings.ReplaceAll(block, sq, sq bs sq sq)` escaping embedded
single quotes for the retry wrapper. -/
def escapeQuotes : Str → Str
  | [] => []
  | c :: rest => (if c = '\'' then "'\\''".toList else [c]) ++ escapeQuotes rest

/-- The writes for one command block: a tab, the block (wrapped in
`try_run '...'` with quotes escaped when `retry` is set), a newline. -/
def blockPieces (retry : Bool) (block : Str) : List Piece :=
  [Piece.text "\t".toList]
    ++ (if retry then
          [Piece.text "try_run '".toList, Piece.block (escapeQuotes block),
            Piece.text "'".toList]
        else [Piece.block block])
    ++ [Piece.text "\n".toList]

/-- The loop of `Body.BashString`: per block, its writes, then the abort guard
when `withExit` is set. -/
def bodyPiecesCore (withExit retry : Bool) : List Str → List Piece
  | [] => []
  | block :: rest =>
      blockPieces retry block ++ (if withExit then [Piece.exitGuard] else [])
        ++ bodyPiecesCore withExit retry rest

/-- The full write sequence of `Body.BashString(withExit, retry)`; an empty
body renders as the no-op line. -/
def Body.bashPieces (b : List Str) (withExit retry : Bool) : List Piece :=
  if b = [] then [Piece.text "\t:\n".toList] else bodyPiecesCore withExit retry b

/-- Model of `Body.BashString(withExit, retry)`: the concatenated writes. -/
def Body.BashString (b : List Str) (withExit retry : Bool) : Str :=
  concatAll ((Body.bashPieces b withExit retry).map Piece.render)

/-- The `setup_dependencies` body passed to the script template: the parents'
recursive setup expansion, in declared order. -/
def Suite.setupDependenciesBody (abs dirOf : Str → Str) (s : Suite) : List Str :=
  setupExpansion abs dirOf s.Parents

/-- The `setup_main` body: the suite's `Run` list as left after `BashString`
prefixed it in place with the setup marker and the directory change. -/
def Suite.setupMainBody (abs dirOf : Str → Str) (s : Suite) : List Str :=
  [setupMarker dirOf s.Location, cdCmd abs s.Dir] ++ s.Run

/-- The `cleanup_dependencies` body: each parent's `getDependenciesCleanup`
contribution, in declared order. -/
def Suite.cleanupDependenciesBody (abs dirOf : Str → Str) (s : Suite) : List Str :=
  cleanupExpansion abs dirOf s.Parents

/-- The `cleanup_main` body: the suite's `Cleanup` list as left after
`BashString` prefixed it in place with the cleanup marker and the directory
change. -/
def Suite.cleanupMainBody (abs dirOf : Str → Str) (s : Suite) : List Str :=
  [cleanupMarker dirOf s.Location, cdCmd abs s.Dir] ++ s.Cleanup

/-- Text of `bashSuiteTemplate` before the `RetryFunction` slot. -/
def tplHead : Str := "\n#!/usr/bin/env bash\n".toList

/-- Template text between the `RetryFunction` and `SetupDependencies` slots. -/
def tplAfterRetry : Str := "\nsetup_dependencies() \x7b\n".toList

/-- Template text between the `SetupDependencies` and `SetupMain` slots. -/
def tplAfterSetupDeps : Str := "\x7d\n\nsetup_main() \x7b\n".toList

/-- Template text between the `SetupMain` and `CleanupDependencies` slots. -/
def tplAfterSetupMain : Str :=
  "\x7d\n\nsetup() \x7b\n\tsetup_dependencies && setup_main\n\x7d\n\ncleanup_dependencies() \x7b\n".toList

/-- Template text between the `CleanupDependencies` and `CleanupMain` slots. -/
def tplAfterCleanupDeps : Str :=
  "\t# cleanup shouldn't report errors\n\ttrue\n\x7d\n\ncleanup_main() \x7b\n".toList

/-- Template text after the `CleanupMain` slot. -/
def tplAfterCleanupMain : Str :=
  "\t# cleanup shouldn't report errors\n\ttrue\n\x7d\n\ncleanup() \x7b\n\tcleanup_main\n\tcleanup_dependencies\n\x7d\n".toList

/-- The trailing writes of `Suite.BashString`: a blank separator and the
dispatch on the script's first argument. -/
def tplTail : Str := "\n\n\"$1\"\n".toList

/-- The `retryTemplate` shell function `try_run`. -/
def retryTemplate : Str :=
  ("\nfunction try_run() \x7b\n    command=\"$1\"\n    attempt=0\n    retry_interval=1\n    timeout=\"$\x7bRETRY_TIMEOUT_SECONDS:-300\x7d\"\n    start_time=\"$(date -u +%s)\"\n    echo \"===== next command =====\"\n    echo \"$command\"\n    while true; do\n        attempt=$((attempt + 1))\n        echo \"===== attempt $attempt =====\"\n        echo \"current time $(date +\"%Y-%m-%dT%H:%M:%S%z\")\"\n        source /dev/stdin <<<\"$(echo \"$\x7bcommand\x7d\")\"\n        retval=$?\n\t\techo\n        echo \"retval = $retval\"\n        current_time=\"$(date -u +%s)\"\n        elapsed=$((current_time-start_time))\n        echo \"elapsed = $elapsed\"\n        [ $retval = 0 ] && echo \"===== command success =====\" && return 0\n        [ \"$elapsed\" -gt \"$timeout\" ] && echo \"===== command timed out =====\" && return 1\n        sleep $retry_interval\n    done\n\x7d\n").toList

/-- Model of `Suite.BashString(retry)`: renders the standalone script and
returns it together with the suite as the call leaves it — the source
prepends the marker and directory-change to the receiver's `Run` and
`Cleanup` slices in place before rendering.  `abs` models `filepath.Abs`,
`dirOf` models `filepath.Dir`, `testRender` models `Test.BashString`. -/
def Suite.BashString (abs dirOf : Str → Str) (testRender : Str → Bool → Str)
    (retry : Bool) (s : Suite) : Str × Suite :=
  let run2 := Suite.setupMainBody abs dirOf s
  let cleanup2 := Suite.cleanupMainBody abs dirOf s
  let retryFunction := if retry then retryTemplate else []
  let out :=
    tplHead ++ retryFunction ++ tplAfterRetry
      ++ Body.BashString (Suite.setupDependenciesBody abs dirOf s) true retry
      ++ tplAfterSetupDeps ++ Body.BashString run2 true retry
      ++ tplAfterSetupMain
      ++ Body.BashString (Suite.cleanupDependenciesBody abs dirOf s) false false
      ++ tplAfterCleanupDeps ++ Body.BashString cleanup2 false false
      ++ tplAfterCleanupMain
      ++ concatAll (s.Tests.map (fun t => testRender t retry))
      ++ tplTail
  (out, Suite.mk s.Dir s.Location cleanup2 run2 s.Tests s.Parents)

/-- The zero-value `Test` appended by `Suite.String` to an empty `Tests` list;
`Test` is external to the modelled sources, so tests are opaque values. -/
def emptyTest : Str := []

/-- Model of `Suite.String()`: the generated-code rendering.  The template
execution and per-test rendering are external mechanisms (their output text
is `tmplOut` and `testStr`, the final whitespace normalization `normalize`);
what the source adds around them is the `Tests` rewrite — when the list is
empty a fresh zero-value `Test` is appended to the receiver before the test
methods are rendered — and the concatenation of the rendered tests.  Returns
the rendered text and the suite as the call leaves it. -/
def Suite.String (tmplOut : Str) (testStr : Str → Str) (normalize : Str → Str)
    (s : Suite) : Str × Suite :=
  let tests := if s.Tests.length = 0 then s.Tests ++ [emptyTest] else s.Tests
  (normalize (tmplOut ++ concatAll (tests.map testStr)),
    Suite.mk s.Dir s.Location s.Cleanup s.Run tests s.Parents)

/-- A root suite used as a concrete instance in witnesses. -/
def sampleRoot : Suite :=
  Suite.mk "/a".toList "la/readme".toList ["ac".toList] ["a1".toList] [] []

/-- A middle suite whose only parent is `sampleRoot`. -/
def sampleMid : Suite :=
  Suite.mk "/b".toList "lb/readme".toList ["bc".toList] ["b1".toList] [] [sampleRoot]

/-- A leaf suite whose only parent is `sampleMid` and whose own body is one
command. -/
def sampleLeaf : Suite :=
  Suite.mk "/s".toList "ls/readme".toList [] ["c0".toList] [] [sampleMid]

/-- A parentless suite with no tests, used for concrete renderings. -/
def sampleSolo : Suite :=
  Suite.mk "/d".toList "ld/readme".toList ["rm -f x".toList] ["touch x".toList] [] []

/-- A parentless suite with one test, used for concrete renderings. -/
def sampleTested : Suite :=
  Suite.mk "/e".toList "le/readme".toList [] [] ["t1".toList] []

/-- An identity path function standing for `filepath.Abs` or `filepath.Dir`
at concrete witnesses. -/
def idPath : Str → Str := fun x => x

/-- A test renderer for concrete witnesses. -/
def idTest : Str → Bool → Str := fun t _ => t

end Generator

namespace Shell

theorem hasSuffix_append (pre suf : Str) : hasSuffix (pre ++ suf) suf = true := by
  unfold hasSuffix
  rw [List.length_append, Nat.add_sub_cancel, List.drop_left]
  simp

theorem hasSuffix_ok_of_sentinel (outText : Str) :
    hasSuffix (outText ++ '\n' :: okSent) okSent = true := by
  have h : outText ++ '\n' :: okSent = (outText ++ ['\n']) ++ okSent := by simp
  rw [h]
  exact hasSuffix_append _ _

theorem not_hasSuffix_ok_of_failed (r : Str)
    (hf : hasSuffix r failedSent = true) : hasSuffix r okSent = false := by
  unfold hasSuffix at hf ⊢
  have hdrop : r.drop (r.length - 6) = failedSent := of_decide_eq_true hf
  have hlen : (r.drop (r.length - 6)).length = 6 := by rw [hdrop]; rfl
  rw [List.length_drop] at hlen
  have h6 : 6 ≤ r.length := by omega
  have hed : r.drop (r.length - 2) = ['E', 'D'] := by
    have h4 : (r.drop (r.length - 6)).drop 4 = r.drop (r.length - 6 + 4) :=
      List.drop_drop 4 (r.length - 6) r
    have harith : r.length - 6 + 4 = r.length - 2 := by omega
    rw [harith] at h4
    rw [← h4, hdrop]
    rfl
  have hl2 : okSent.length = 2 := rfl
  rw [hl2, hed]
  decide

end Shell

/-- C1: when the status probe observes exit status 0 — the accumulated stdout
bytes, once trimmed, are the captured output followed by a line holding the
sentinel `OK` — the stdout listener delivers the captured text with the
trailing sentinel removed on the output channel and resets, and `Run` on a
live session returns exactly that text with a nil error. -/
theorem run_ok_returns_trimmed_output (st : Shell.StdoutState)
    (chunk outText cmd : Str) (events : List Shell.Event)
    (hr : Shell.trimSpace (st.buffered ++ chunk) = outText ++ '\n' :: Shell.okSent) :
    Shell.stdoutStep st chunk = (⟨[], []⟩, some (Shell.Event.out outText)) ∧
    (Shell.Bash.Run ⟨false⟩ cmd (Shell.Event.out outText :: events)).result
      = some (outText, none) := by
  have hok := Shell.hasSuffix_ok_of_sentinel outText
  have hlen : (outText ++ '\n' :: Shell.okSent).length = outText.length + 3 := by
    simp [Shell.okSent]
  have htake : (outText ++ '\n' :: Shell.okSent).take
      ((outText ++ '\n' :: Shell.okSent).length - 3) = outText := by
    rw [hlen, Nat.add_sub_cancel]
    exact List.take_left' rfl
  constructor
  · simp only [Shell.stdoutStep, hr, hok, if_true, hlen, htake]
    have h2 : 2 < outText.length + 3 := by omega
    simp [h2]
  · rfl

/-- C1 witness: a concrete session whose command prints `hello`. -/
theorem run_ok_returns_trimmed_output_witness :
    Shell.stdoutStep ⟨[], []⟩ "hello\nOK\n".toList
      = (⟨[], []⟩, some (Shell.Event.out "hello".toList)) ∧
    (Shell.Bash.Run ⟨false⟩ "echo hello".toList
        [Shell.Event.out "hello".toList]).result
      = some ("hello".toList, none) :=
  run_ok_returns_trimmed_output ⟨[], []⟩ "hello\nOK\n".toList "hello".toList
    "echo hello".toList [] (by decide)

/-- C5: a non-empty chunk read from standard error while a `Run` is pending is
turned into exactly one error event whose message is the chunk's text, and
`Run` — whatever events would have followed, hence regardless of the
command's eventual exit status — returns that message as its error with an
empty output string. -/
theorem stderr_chunk_is_returned_error (chunk cmd : Str) (events : List Shell.Event)
    (_hne : chunk ≠ []) :
    Shell.stderrStep chunk = Shell.Event.err chunk ∧
    Shell.Bash.Run ⟨false⟩ cmd (Shell.stderrStep chunk :: events)
      = ⟨[cmd ++ "\n".toList, Shell.checkStatus ++ "\n".toList],
          some ([], some chunk)⟩ :=
  ⟨rfl, rfl⟩

/-- C5 witness: a concrete stderr chunk. -/
theorem stderr_chunk_is_returned_error_witness :
    Shell.stderrStep "oops".toList = Shell.Event.err "oops".toList ∧
    Shell.Bash.Run ⟨false⟩ "false".toList
        [Shell.stderrStep "oops".toList, Shell.Event.out []]
      = ⟨["false".toList ++ "\n".toList, Shell.checkStatus ++ "\n".toList],
          some ([], some "oops".toList)⟩ :=
  stderr_chunk_is_returned_error "oops".toList "false".toList
    [Shell.Event.out []] (by decide)

/-- C6: when the status probe observes a nonzero exit status — the trimmed
stdout bytes end with the sentinel `FAILED` — the listener delivers an error
and resets its accumulator, and `Run` on a live session with no stderr bytes
(the failure event is the first arrival) returns an empty output string and
a non-nil error. -/
theorem run_failed_returns_error (st : Shell.StdoutState) (chunk cmd : Str)
    (events : List Shell.Event)
    (hf : Shell.hasSuffix (Shell.trimSpace (st.buffered ++ chunk))
      Shell.failedSent = true) :
    Shell.stdoutStep st chunk
      = (⟨st.output, []⟩, some (Shell.Event.err Shell.failedMessage)) ∧
    (Shell.Bash.Run ⟨false⟩ cmd (Shell.Event.err Shell.failedMessage :: events)).result
      = some ([], some Shell.failedMessage) := by
  have hok := Shell.not_hasSuffix_ok_of_failed _ hf
  constructor
  · simp only [Shell.stdoutStep, hok, hf, if_true, Bool.false_eq_true, if_false]
  · rfl

/-- C6 witness: a failing command with no output. -/
theorem run_failed_returns_error_witness :
    Shell.stdoutStep ⟨[], []⟩ "FAILED\n".toList
      = (⟨[], []⟩, some (Shell.Event.err Shell.failedMessage)) ∧
    (Shell.Bash.Run ⟨false⟩ "false".toList
        [Shell.Event.err Shell.failedMessage]).result
      = some ([], some Shell.failedMessage) :=
  run_failed_returns_error ⟨[], []⟩ "FAILED\n".toList "false".toList [] (by decide)

/-- C7: after `Close` has fired the cancellation signal, every subsequent
`Run` call — whatever command and whatever channel traffic — returns the
cancellation error immediately and writes nothing to the process stdin. -/
theorem run_after_close_fails_without_writing (b : Shell.Bash) (cmd : Str)
    (events : List Shell.Event) :
    (b.Close.1).Run cmd events = ⟨[], some ([], some Shell.ctxCanceled)⟩ :=
  rfl

/-- C8: when a read fills the 64 KiB buffer and the trimmed content ends in
neither sentinel, the accumulator position resets to zero — the buffered
output is discarded — and no event is delivered on either channel: the
listener just keeps reading and the caller sees no error for the lost
chunk. -/
theorem buffer_full_discards_silently (st : Shell.StdoutState) (chunk : Str)
    (hok : Shell.hasSuffix (Shell.trimSpace (st.buffered ++ chunk))
      Shell.okSent = false)
    (hfail : Shell.hasSuffix (Shell.trimSpace (st.buffered ++ chunk))
      Shell.failedSent = false)
    (hfull : st.buffered.length + chunk.length = Shell.bufferSize) :
    Shell.stdoutStep st chunk = (⟨st.output, []⟩, none) := by
  simp only [Shell.stdoutStep, hok, hfail, hfull, Bool.false_eq_true, if_false, if_true]

theorem trimSpace_replicate_a (n : Nat) :
    Shell.trimSpace (List.replicate n 'a') = List.replicate n 'a' := by
  have h : ('a'.isWhitespace) = false := by decide
  simp [Shell.trimSpace, List.dropWhile_replicate, h]

theorem drop_replicate_a (n k : Nat) (hk : k ≤ n) :
    (List.replicate n 'a').drop (n - k) = List.replicate k 'a' := by
  have h : List.replicate n 'a' = List.replicate (n - k) 'a' ++ List.replicate k 'a' := by
    rw [← List.replicate_add, Nat.sub_add_cancel hk]
  rw [h, List.drop_left' (by simp)]

/-- C8 witness: a full 64 KiB read of plain bytes with no sentinel. -/
theorem buffer_full_discards_silently_witness :
    Shell.stdoutStep ⟨[], []⟩ (List.replicate Shell.bufferSize 'a')
      = (⟨[], []⟩, none) := by
  have hbuf : (Shell.StdoutState.mk [] []).buffered = ([] : Str) := rfl
  have htrim : Shell.trimSpace
      ((Shell.StdoutState.mk [] []).buffered ++ List.replicate Shell.bufferSize 'a')
      = List.replicate Shell.bufferSize 'a' := by
    rw [hbuf, List.nil_append]
    exact trimSpace_replicate_a _
  have hok : Shell.hasSuffix
      (Shell.trimSpace
        ((Shell.StdoutState.mk [] []).buffered ++ List.replicate Shell.bufferSize 'a'))
      Shell.okSent = false := by
    rw [htrim]
    unfold Shell.hasSuffix
    have h1 : Shell.okSent.length = 2 := rfl
    rw [h1, List.length_replicate, drop_replicate_a _ 2 (by decide)]
    decide
  have hfail : Shell.hasSuffix
      (Shell.trimSpace
        ((Shell.StdoutState.mk [] []).buffered ++ List.replicate Shell.bufferSize 'a'))
      Shell.failedSent = false := by
    rw [htrim]
    unfold Shell.hasSuffix
    have h1 : Shell.failedSent.length = 6 := rfl
    rw [h1, List.length_replicate, drop_replicate_a _ 6 (by decide)]
    decide
  have hfull : (Shell.StdoutState.mk [] []).buffered.length
      + (List.replicate Shell.bufferSize 'a').length = Shell.bufferSize := by
    rw [hbuf, List.length_nil, List.length_replicate, Nat.zero_add]
  exact buffer_full_discards_silently ⟨[], []⟩ _ hok hfail hfull

namespace Generator

theorem setupExpansion_eq_concatAll (abs dirOf : Str → Str) (l : List Suite) :
    setupExpansion abs dirOf l
      = concatAll (l.map (Suite.getDependenciesSetup abs dirOf)) := by
  induction l with
  | nil => rfl
  | cons p ps ih => simp [setupExpansion, concatAll, ih]

theorem cleanupExpansion_eq_concatAll (abs dirOf : Str → Str) (l : List Suite) :
    cleanupExpansion abs dirOf l
      = concatAll (l.map (fun p =>
          ([cleanupMarker dirOf p.Location, cdCmd abs p.Dir] ++ p.Cleanup)
            ++ concatAll (p.Parents.map (Suite.getDependenciesSetup abs dirOf)))) := by
  induction l with
  | nil => rfl
  | cons p ps ih =>
      simp [cleanupExpansion, concatAll, Suite.getDependenciesCleanup, ih,
        setupExpansion_eq_concatAll]

/-- C2: for a suite whose ancestor chain is root `A`, direct parent `B` (with
`B.Parents = [A]`) and whose own body is the single command `c`, the composed
setup sequence — the `setup_dependencies` body followed by the `setup_main`
body — is A's recursive setup expansion, then B's log marker, directory
change and `Run` body, then the suite's own marker, directory change and
`c`. -/
theorem setup_chain_composition (abs dirOf : Str → Str) (A B s : Suite) (c : Str)
    (hB : B.Parents = [A]) (hs : s.Parents = [B]) (hrun : s.Run = [c]) :
    Suite.setupDependenciesBody abs dirOf s ++ Suite.setupMainBody abs dirOf s
      = Suite.getDependenciesSetup abs dirOf A
        ++ ([setupMarker dirOf B.Location, cdCmd abs B.Dir] ++ B.Run)
        ++ ([setupMarker dirOf s.Location, cdCmd abs s.Dir] ++ [c]) := by
  obtain ⟨dB, lB, clB, rB, tB, pB⟩ := B
  obtain ⟨ds, ls, cls, rs, ts, ps⟩ := s
  simp only [Suite.Parents] at hB hs
  simp only [Suite.Run] at hrun
  subst hB hs hrun
  simp only [Suite.setupDependenciesBody, Suite.setupMainBody, setupExpansion,
    Suite.getDependenciesSetup, Suite.Parents, Suite.Location, Suite.Dir,
    Suite.Run, List.append_nil, List.append_assoc]

/-- C2 witness: the concrete chain `sampleRoot ← sampleMid ← sampleLeaf`. -/
theorem setup_chain_composition_witness :
    Suite.setupDependenciesBody idPath idPath sampleLeaf
        ++ Suite.setupMainBody idPath idPath sampleLeaf
      = Suite.getDependenciesSetup idPath idPath sampleRoot
        ++ ([setupMarker idPath sampleMid.Location, cdCmd idPath sampleMid.Dir]
              ++ sampleMid.Run)
        ++ ([setupMarker idPath sampleLeaf.Location, cdCmd idPath sampleLeaf.Dir]
              ++ ["c0".toList]) :=
  setup_chain_composition idPath idPath sampleRoot sampleMid sampleLeaf
    "c0".toList rfl rfl rfl

/-- C3: for every suite, the composed cleanup sequence — the `cleanup_main`
body followed by the `cleanup_dependencies` body — starts with the suite's
own cleanup marker, directory change and `Cleanup` body, then appends each
parent's contribution in declared order; and inside each parent's
contribution the ancestor part is computed by the setup expansion
`getDependenciesSetup`, not a cleanup-specific expansion. -/
theorem cleanup_reuses_setup_expansion (abs dirOf : Str → Str) (s : Suite) :
    Suite.cleanupMainBody abs dirOf s ++ Suite.cleanupDependenciesBody abs dirOf s
      = ([cleanupMarker dirOf s.Location, cdCmd abs s.Dir] ++ s.Cleanup)
        ++ concatAll (s.Parents.map (fun p =>
            ([cleanupMarker dirOf p.Location, cdCmd abs p.Dir] ++ p.Cleanup)
              ++ concatAll (p.Parents.map (Suite.getDependenciesSetup abs dirOf)))) := by
  simp only [Suite.cleanupMainBody, Suite.cleanupDependenciesBody,
    cleanupExpansion_eq_concatAll]

theorem exitGuard_not_in_blockPieces (retry : Bool) (block : Str) :
    Piece.exitGuard ∉ blockPieces retry block := by
  cases retry <;> simp [blockPieces]

theorem exitGuard_not_in_bodyPiecesCore (retry : Bool) (blocks : List Str) :
    Piece.exitGuard ∉ bodyPiecesCore false retry blocks := by
  induction blocks with
  | nil => simp [bodyPiecesCore]
  | cons b bs ih =>
      simp only [bodyPiecesCore, Bool.false_eq_true, if_false, List.append_nil,
        List.mem_append]
      exact fun h => h.elim (fun h1 => exitGuard_not_in_blockPieces retry b h1) ih

theorem exitGuard_not_in_bashPieces (b : List Str) (retry : Bool) :
    Piece.exitGuard ∉ Body.bashPieces b false retry := by
  by_cases h : b = []
  · simp [Body.bashPieces, h]
  · simp only [Body.bashPieces, h, if_false]
    exact exitGuard_not_in_bodyPiecesCore retry b

/-- C9: in the emitted script the `cleanup_main` and `cleanup_dependencies`
bodies are rendered with `withExit = false`, so their write sequences never
contain the `exit 1` abort guard — while the very same `Body.BashString`
composition, applied to the setup-main body with `withExit = true`, does
emit the guard. -/
theorem cleanup_never_emits_exit_guard (abs dirOf : Str → Str) (s : Suite)
    (retry : Bool) :
    Piece.exitGuard ∉ Body.bashPieces (Suite.cleanupMainBody abs dirOf s) false false
    ∧ Piece.exitGuard ∉
        Body.bashPieces (Suite.cleanupDependenciesBody abs dirOf s) false false
    ∧ Piece.exitGuard ∈
        Body.bashPieces (Suite.setupMainBody abs dirOf s) true retry := by
  refine ⟨exitGuard_not_in_bashPieces _ _, exitGuard_not_in_bashPieces _ _, ?_⟩
  simp [Suite.setupMainBody, Body.bashPieces, bodyPiecesCore]

/-- C4 counterexample: rendering the same concrete suite twice does not give
byte-identical output, and emission mutates the suite's `Run` list visibly. -/
theorem bashString_not_idempotent_cex :
    (Suite.BashString idPath idPath idTest false
        ((Suite.BashString idPath idPath idTest false sampleSolo).2)).1
      ≠ (Suite.BashString idPath idPath idTest false sampleSolo).1
    ∧ (Suite.BashString idPath idPath idTest false sampleSolo).2.Run
      ≠ sampleSolo.Run := by
  decide

/-- C4 (amended): `Suite.BashString` is not idempotent on its receiver — every
call prepends the suite's log marker and directory change to the `Run` and
`Cleanup` lists, a mutation visible to callers, so a second rendering sees
the already-prefixed lists and produces different output. -/
theorem bashString_mutates_receiver (abs dirOf : Str → Str)
    (testRender : Str → Bool → Str) (retry : Bool) (s : Suite) :
    (Suite.BashString abs dirOf testRender retry s).2.Run
      = setupMarker dirOf s.Location :: cdCmd abs s.Dir :: s.Run
    ∧ (Suite.BashString abs dirOf testRender retry s).2.Cleanup
      = cleanupMarker dirOf s.Location :: cdCmd abs s.Dir :: s.Cleanup := by
  constructor <;>
    simp [Suite.BashString, Suite.Run, Suite.Cleanup, Suite.setupMainBody,
      Suite.cleanupMainBody]

/-- C10: `Suite.String` appends one empty `Test` to the receiver's `Tests`
field when that list is empty — a mutation visible through the returned
state — and leaves a non-empty `Tests` list unchanged. -/
theorem goString_appends_empty_test (tmplOut : Str) (testStr : Str → Str)
    (normalize : Str → Str) (s : Suite) :
    (s.Tests = [] →
      (Suite.String tmplOut testStr normalize s).2.Tests = [emptyTest])
    ∧ (s.Tests ≠ [] →
      (Suite.String tmplOut testStr normalize s).2.Tests = s.Tests) := by
  obtain ⟨d, l, cl, r, t, p⟩ := s
  constructor
  · intro h
    simp only [Suite.Tests] at h
    subst h
    simp [Suite.String, Suite.Tests]
  · intro h
    simp only [Suite.Tests] at h
    simp [Suite.String, Suite.Tests, List.length_eq_zero, h]

/-- C10 witness: a suite with no tests gains exactly one empty test, a suite
with one test keeps its list. -/
theorem goString_appends_empty_test_witness :
    (Suite.String [] (fun t => t) (fun t => t) sampleLeaf).2.Tests = [emptyTest]
    ∧ (Suite.String [] (fun t => t) (fun t => t) sampleTested).2.Tests
      = sampleTested.Tests :=
  ⟨(goString_appends_empty_test [] (fun t => t) (fun t => t) sampleLeaf).1 rfl,
    (goString_appends_empty_test [] (fun t => t) (fun t => t) sampleTested).2
      (by decide)⟩

end Generator
